import Mathlib

/-!
# plutus: key custody and multisig provisioning

A shallow embedding of the HTTP handlers of `routes/bitcoin.go` and of
`plutus.GetOperatorKey` (`plutus/operator_pubkeys.go`).

A handler is a function from its collaborators (an `Env`: the wallet RPC
client, the persistence functions of package `plutus`, the `btcutil`
codecs, the rate-limiter library) and the request context to the list of
observable events it produces, in program order: limiter takes, wallet RPC
calls, persistence writes, JSON responses written with `c.JSON`, and a
final `panic` when the Go code dereferences nil or fails a type assertion.
-/

namespace Plutus

/-- A Go byte slice; the handlers never do arithmetic on the bytes. -/
abbrev Bytes := List Nat

/-- A Go `float64`, kept as its bit pattern: only `btcutil.NewAmount` reads it. -/
structure Float64 where
  bits : Nat
  deriving DecidableEq, Repr

/-- A value decoded by `encoding/json` into `interface{}`. Arrays, objects,
booleans and null are never inspected by the handlers and are collapsed. -/
inductive JVal where
  | str (s : String)
  | num (f : Float64)
  | other
  deriving DecidableEq, Repr

/-- The part of `gin.Context` the handlers read: the arrival time of the
request (nanoseconds) and the result of `c.ShouldBindJSON(&body)` for the
map type `map[string]V` the handler binds to. -/
structure Context (V : Type) where
  now : Nat
  ShouldBindJSON : Except String (List (String × V))

/-- Go map indexing `body[k]` on a `map[string]string`: the zero value `""`
when the key is absent. -/
def index (body : List (String × String)) (k : String) : String :=
  (body.lookup k).getD ""

/-- Go type assertion `body[k].(string)` on a `map[string]interface{}`;
`none` is the run-time panic of a failed assertion. -/
def assertString (body : List (String × JVal)) (k : String) : Option String :=
  match body.lookup k with
  | some (.str s) => some s
  | _ => none

/-- Go type assertion `body[k].(float64)`; `none` is the run-time panic. -/
def assertFloat64 (body : List (String × JVal)) (k : String) : Option Float64 :=
  match body.lookup k with
  | some (.num f) => some f
  | _ => none

/-- The loop `for k := range body { delete(body, k) }`. -/
def clear {V : Type} (_body : List (String × V)) : List (String × V) := []

/-- Row type of the `operator_public_keys` table (the fields that are read). -/
structure OperatorPublicKey where
  ID : Bytes
  PubKey : Bytes
  deriving DecidableEq, Repr

/-- Modelled from the spec: the record type returned by
`plutus.FindPublicKeyByAccount` (an AccountPublicKey row) is not among the
sources. The handler reads only its field `PubKey`, a Go string that is
converted with `[]byte(...)`; a Go string is a byte sequence, so the field is
kept as its bytes and the conversion is the identity. -/
structure AccountPublicKey where
  PubKey : Bytes
  deriving DecidableEq, Repr

/-- The type `btcjson.CreateMultiSigResult`. -/
structure CreateMultiSigResult where
  Address : String
  RedeemScript : String
  deriving DecidableEq, Repr

/-- The second argument of `c.JSON`. -/
inductive Payload where
  | H (fields : List (String × String))
  | result (r : CreateMultiSigResult)
  | text (s : String)
  deriving DecidableEq, Repr

/-- Observable events of a handler run. -/
inductive Event (Key Addr : Type) where
  | Take (rate arrived admitted : Nat)
  | RPCGetBalance (account : String)
  | RPCSendToAddress (destination : Addr) (amount : Int)
  | RPCCreateMultisig (nrequired : Nat) (addresses : List Key)
  | NewMultisigWallet (customer operator vendor : Bytes) (address redeemScript : String)
  | NewPubKey (account pubKey : String)
  | JSON (code : Nat) (obj : Payload)
  | panic (msg : String)
  deriving DecidableEq, Repr

/-- The collaborators of the handlers. `Key` is `*btcutil.AddressPubKey`,
`Addr` is `btcutil.Address`, `L` is the state of a `ratelimit.Limiter`.
Go functions returning `(value, error)` whose value is ignored on error are
`Except`; those whose value is used even on error are pairs. -/
structure Env (Key Addr L : Type) where
  /-- Library `ratelimit.New(rate)`. -/
  limiterNew : Nat → L
  /-- Library `limiter.Take()` called at a given time: new state and the time at which it returns. -/
  limiterTake : L → Nat → L × Nat
  /-- Package function `plutus.FindPublicKeyByAccount`: the pointer (nil is `none`) and the error. -/
  FindPublicKeyByAccount : String → Option AccountPublicKey × Option String
  /-- Package function `plutus.NewMultisigWallet`: the error, if any. -/
  NewMultisigWallet : Bytes → Bytes → Bytes → String → String → Option String
  /-- Package function `plutus.NewPubKey`: the error, if any. -/
  NewPubKey : String → String → Option String
  /-- Query `Database.Find(&keys)` with its `.Error`. -/
  DatabaseFind : Except String (List OperatorPublicKey)
  /-- Value drawn by `rand.Intn(n)` for `n > 0`, after the reseeding. -/
  randDraw : Nat → Nat
  /-- Library `btcutil.NewAddressPubKey(bytes, netParams)`. -/
  NewAddressPubKey : Bytes → Except String Key
  /-- Method chain `key.PubKey().SerializeCompressed()`. -/
  SerializeCompressed : Key → Bytes
  /-- Library `btcutil.DecodeAddress(s, netParams)`. -/
  DecodeAddress : String → Except String Addr
  /-- Library `btcutil.NewAmount(f)`, in satoshi. -/
  NewAmount : Float64 → Except String Int
  /-- Method `Amount.String()`. -/
  AmountString : Int → String
  /-- Method `Hash.String()`. -/
  HashString : Bytes → String
  /-- Wallet RPC `BitcoinRPCClient.CreateMultisig`. -/
  CreateMultisig : Nat → List Key → Except String CreateMultiSigResult
  /-- Wallet RPC `BitcoinRPCClient.GetBalance`: an `Amount` value and the error. -/
  GetBalance : String → Int × Option String
  /-- Wallet RPC `BitcoinRPCClient.SendToAddress`: a `*chainhash.Hash` (nil is `none`) and the error. -/
  SendToAddress : Addr → Int → Option Bytes × Option String

/-- Result of a Go function returning `(value, error)` that may also panic. -/
inductive Outcome (α : Type) where
  | ok (a : α)
  | error (e : String)
  | panic (msg : String)
  deriving DecidableEq, Repr

def errInvalidRequestBody : String := "Invalid request body"
def errInvalidBitcoinAddress : String := "Invalid bitcoin address detected"
def errInvalidBitcoinValue : String := "Invalid bitcoin value detected"
def errSendingTransaction : String := "Error sending transaction"
def errRequestFailed : String := "The request failed, please try again"
def errBalanceCheck : String := "Could not obtain platform balance"
def errFailedToFindPublicKey : String := "Failed to find a public key"
def errInvalidPublicKey : String := "Public key on file is invalid"

def panicNilDeref : String := "invalid memory address or nil pointer dereference"
def panicIntn : String := "invalid argument to Intn"
def panicIndex : String := "index out of range"
def panicAssert : String := "interface conversion"

section Handlers

variable {Key Addr L : Type}

/-- Library `rand.Intn(n)`: panics when `n <= 0`. -/
def randIntn (env : Env Key Addr L) (n : Nat) : Outcome Nat :=
  if n = 0 then .panic panicIntn else .ok (env.randDraw n)

/-- Function `plutus.GetOperatorKey` (operator_pubkeys.go, lines 22-34). -/
def GetOperatorKey (env : Env Key Addr L) : Outcome Bytes :=
  match env.DatabaseFind with
  | .error err => .error err
  | .ok keys =>
    match randIntn env keys.length with
    | .panic m => .panic m
    | .error e => .error e
    | .ok i =>
      match keys[i]? with
      | none => .panic panicIndex
      | some k => .ok k.PubKey

/-- Handler `routes.AddMultisigAddress` (bitcoin.go, lines 351-445). -/
def AddMultisigAddress (env : Env Key Addr L) (c : Context String) : List (Event Key Addr) :=
  let limiter := env.limiterNew 5
  Event.Take 5 c.now (env.limiterTake limiter c.now).2 ::
  match c.ShouldBindJSON with
  | .error _ => [.JSON 400 (.H [("error", errInvalidRequestBody)])]
  | .ok body =>
    let found := env.FindPublicKeyByAccount (index body "customer")
    -- no return after this response
    (if found.2.isSome then
      [Event.JSON 400 (.H [("error", errFailedToFindPublicKey), ("field", "customer")])]
     else []) ++
    match found.1 with
    | none => [.panic panicNilDeref]
    | some customer =>
    match env.NewAddressPubKey customer.PubKey with
    | .error _ => [.JSON 400 (.H [("error", errInvalidPublicKey), ("field", "customer")])]
    | .ok customerKey =>
    match env.FindPublicKeyByAccount (index body "vendor") with
    | (_, some _) => [.JSON 400 (.H [("error", errFailedToFindPublicKey), ("field", "vendor")])]
    | (none, none) => [.panic panicNilDeref]
    | (some vendor, none) =>
    let _body := clear body
    match env.NewAddressPubKey vendor.PubKey with
    | .error _ => [.JSON 400 (.H [("error", errInvalidPublicKey), ("field", "vendor")])]
    | .ok vendorKey =>
    match GetOperatorKey env with
    | .panic m => [.panic m]
    | .error _ => [.JSON 400 (.H [("error", errFailedToFindPublicKey), ("field", "operator")])]
    | .ok operator =>
    match env.NewAddressPubKey operator with
    | .error _ => [.JSON 400 (.H [("error", errInvalidPublicKey), ("field", "operator")])]
    | .ok operatorKey =>
    let addresses := [customerKey, vendorKey, operatorKey]
    Event.RPCCreateMultisig 2 addresses ::
    match env.CreateMultisig 2 addresses with
    | .error _ => [.JSON 400 (.H [("error", errRequestFailed)])]
    | .ok response =>
    Event.NewMultisigWallet (env.SerializeCompressed customerKey)
      (env.SerializeCompressed operatorKey) (env.SerializeCompressed vendorKey)
      response.Address response.RedeemScript ::
    match env.NewMultisigWallet (env.SerializeCompressed customerKey)
      (env.SerializeCompressed operatorKey) (env.SerializeCompressed vendorKey)
      response.Address response.RedeemScript with
    | some err => [.JSON 400 (.H [("error", err)])]
    | none => [.JSON 200 (.result response)]

/-- Handler `routes.SubmitPublicKey` (bitcoin.go, lines 453-480). -/
def SubmitPublicKey (env : Env Key Addr L) (c : Context String) : List (Event Key Addr) :=
  match c.ShouldBindJSON with
  | .error _ => [.JSON 400 (.H [("error", errInvalidRequestBody)])]
  | .ok body =>
    Event.NewPubKey (index body "username") (index body "pubKey") ::
    match env.NewPubKey (index body "username") (index body "pubKey") with
    | some err => [.JSON 400 (.H [("error", err)])]
    | none =>
      let _body := clear body
      [.JSON 200 (.H [("message", "Key successfully inserted or updated")])]

/-- Handler `routes.GetBalance` (bitcoin.go, lines 28-45). -/
def GetBalance (env : Env Key Addr L) (c : Context String) : List (Event Key Addr) :=
  let limiter := env.limiterNew 5
  Event.Take 5 c.now (env.limiterTake limiter c.now).2 ::
  Event.RPCGetBalance "*" ::
  let r := env.GetBalance "*"
  -- no return after this response
  (if r.2.isSome then [Event.JSON 400 (.H [("error", errBalanceCheck)])] else []) ++
  [.JSON 200 (.H [("balance", env.AmountString r.1)])]

/-- Handler `routes.SendToAddress` (bitcoin.go, lines 89-132). -/
def SendToAddress (env : Env Key Addr L) (c : Context JVal) : List (Event Key Addr) :=
  let limiter := env.limiterNew 5
  Event.Take 5 c.now (env.limiterTake limiter c.now).2 ::
  match c.ShouldBindJSON with
  | .error _ => [.JSON 400 (.H [("error", errInvalidRequestBody)])]
  | .ok body =>
    match assertString body "destination" with
    | none => [.panic panicAssert]
    | some s =>
    match env.DecodeAddress s with
    | .error _ => [.JSON 400 (.H [("error", errInvalidBitcoinAddress)])]
    | .ok destination =>
    match assertFloat64 body "amount" with
    | none => [.panic panicAssert]
    | some f =>
    match env.NewAmount f with
    | .error _ => [.JSON 400 (.H [("error", errInvalidBitcoinValue)])]
    | .ok amount =>
    Event.RPCSendToAddress destination amount ::
    let r := env.SendToAddress destination amount
    -- no return after this response
    (if r.2.isSome then [Event.JSON 400 (.H [("error", errSendingTransaction)])] else []) ++
    let _body := clear body
    match r.1 with
    | none => [.panic panicNilDeref]
    | some response => [.JSON 200 (.H [("txid", env.HashString response)])]

end Handlers

/-! ## Projections of a trace -/

section Projections

variable {Key Addr : Type}

/-- Calls of the wallet RPC `CreateMultisig`. -/
def isCreateMultisig : Event Key Addr → Bool
  | .RPCCreateMultisig _ _ => true
  | _ => false

/-- Calls of `plutus.NewMultisigWallet`. -/
def isNewMultisigWallet : Event Key Addr → Bool
  | .NewMultisigWallet _ _ _ _ _ => true
  | _ => false

/-- Calls of `plutus.NewPubKey`. -/
def isNewPubKey : Event Key Addr → Bool
  | .NewPubKey _ _ => true
  | _ => false

/-- Responses written with `c.JSON`. -/
def isResponse : Event Key Addr → Bool
  | .JSON _ _ => true
  | _ => false

/-- Run-time panics. -/
def isPanic : Event Key Addr → Bool
  | .panic _ => true
  | _ => false

end Projections

/-! ## A reference limiter and a reference environment -/

/-- State of a `go.uber.org/ratelimit` limiter without slack: the spacing
between two takes in nanoseconds and the time the last take returned. The
library default keeps a slack of ten takes for idle periods; on a burst that
starts at a fresh limiter, the only case used below, the two agree. -/
structure Limiter where
  perRequest : Nat
  last : Option Nat
  deriving DecidableEq, Repr

/-- Library `ratelimit.New(rate)`: `rate` takes per second. -/
def ratelimit.New (rate : Nat) : Limiter :=
  { perRequest := 1000000000 / rate, last := none }

/-- Library `Take()`: the first take returns at once, a later one not before
`perRequest` after the previous one. -/
def Limiter.Take (l : Limiter) (now : Nat) : Limiter × Nat :=
  match l.last with
  | none => ({ l with last := some now }, now)
  | some t =>
    let admitted := max now (t + l.perRequest)
    ({ l with last := some admitted }, admitted)

/-- Return times of `Take()` when ONE limiter, created once, serves all the
requests of an endpoint in arrival order (the throttle of the specification). -/
def sharedTakes {Key Addr L : Type} (env : Env Key Addr L) : L → List Nat → List Nat
  | _, [] => []
  | l, t :: ts => (env.limiterTake l t).2 :: sharedTakes env (env.limiterTake l t).1 ts

/-- The limiter event of each of a series of requests to `AddMultisigAddress`,
given by their arrival times: every request runs the handler. -/
def handlerTakes {Key Addr L : Type} (env : Env Key Addr L)
    (body : Except String (List (String × String))) (arrivals : List Nat) :
    List (Option (Event Key Addr)) :=
  arrivals.map fun t => (AddMultisigAddress env { now := t, ShouldBindJSON := body }).head?

/-- A small deployment used to instantiate the general statements: accounts
alice and bob have keys on file, one operator key is configured, the wallet
node and the database accept everything. Its codecs are stand-ins for
`btcutil`, not models of it: every non-empty byte string decodes, to itself,
and every non-empty string is an address; the short byte lists stand for
valid keys. -/
def demoEnv : Env Bytes String Limiter where
  limiterNew := ratelimit.New
  limiterTake := Limiter.Take
  FindPublicKeyByAccount := fun a =>
    if a = "alice" then (some ⟨[2, 11]⟩, none)
    else if a = "bob" then (some ⟨[3, 12]⟩, none)
    else (none, some "record not found")
  NewMultisigWallet := fun _ _ _ _ _ => none
  NewPubKey := fun _ _ => none
  DatabaseFind := .ok [⟨[1], [2, 13]⟩]
  randDraw := fun _ => 0
  NewAddressPubKey := fun b => if b = [] then .error "pubkey string is empty" else .ok b
  SerializeCompressed := fun k => k
  DecodeAddress := fun s => if s = "" then .error "decoded address is of unknown format" else .ok s
  NewAmount := fun f => .ok f.bits
  AmountString := fun _ => "0 BTC"
  HashString := fun _ => "txid"
  CreateMultisig := fun _ _ => .ok ⟨"bc1q", "5221"⟩
  GetBalance := fun _ => (0, none)
  SendToAddress := fun _ _ => (some [7], none)

/-- The request body `{"customer": "alice", "vendor": "bob"}`. -/
def aliceBob : Context String :=
  { now := 0, ShouldBindJSON := .ok [("customer", "alice"), ("vendor", "bob")] }

/-- The reference deployment in which bob registered the same key as alice. -/
def sameKeyEnv : Env Bytes String Limiter :=
  { demoEnv with
    FindPublicKeyByAccount := fun a =>
      if a = "alice" then (some ⟨[2, 11]⟩, none)
      else if a = "bob" then (some ⟨[2, 11]⟩, none)
      else (none, some "record not found") }

/-- The reference deployment with a wallet node that refuses `CreateMultisig`. -/
def rpcDownEnv : Env Bytes String Limiter :=
  { demoEnv with CreateMultisig := fun _ _ => .error "connection refused" }

/-- The reference deployment with a database whose insert of the escrow
wallet fails with the given error text. -/
def storeFailsEnv (text : String) : Env Bytes String Limiter :=
  { demoEnv with NewMultisigWallet := fun _ _ _ _ _ => some text }

/-- The reference deployment seen by a request for carol, who has no key on
file: the lookup fails, and returns `stale` alongside the error. -/
def lookupFailsEnv (stale : Option AccountPublicKey) : Env Bytes String Limiter :=
  { demoEnv with
    FindPublicKeyByAccount := fun a =>
      if a = "bob" then (some ⟨[3, 12]⟩, none) else (stale, some "record not found") }

/-- The request body `{"customer": "carol", "vendor": "bob"}`. -/
def carolBob : Context String :=
  { now := 0, ShouldBindJSON := .ok [("customer", "carol"), ("vendor", "bob")] }

/-- The reference deployment with a wallet node that refuses to send. -/
def sendFailsEnv : Env Bytes String Limiter :=
  { demoEnv with SendToAddress := fun _ _ => (none, some "insufficient funds") }

/-- The request body `{"destination": "bc1qdest", "amount": a}`, the amount
given by the bit pattern of its float. -/
def sendRequest : Context JVal :=
  { now := 0, ShouldBindJSON := .ok [("destination", .str "bc1qdest"), ("amount", .num ⟨1000⟩)] }

/-- Six arrival times within 200 ms of the first, in nanoseconds. -/
def burst : List Nat := [0, 40000000, 80000000, 120000000, 160000000, 200000000]

/-! ## Structure of a run of `AddMultisigAddress` -/

section Structure

variable {Key Addr L : Type}

/-- The response written when the customer lookup fails. -/
def customerNotFound : Event Key Addr :=
  .JSON 400 (.H [("error", errFailedToFindPublicKey), ("field", "customer")])

/-- What the handler does from the wallet RPC call on. -/
def afterKeys (env : Env Key Addr L) (customerKey vendorKey operatorKey : Key) :
    List (Event Key Addr) :=
  Event.RPCCreateMultisig 2 [customerKey, vendorKey, operatorKey] ::
  match env.CreateMultisig 2 [customerKey, vendorKey, operatorKey] with
  | .error _ => [.JSON 400 (.H [("error", errRequestFailed)])]
  | .ok response =>
    Event.NewMultisigWallet (env.SerializeCompressed customerKey)
      (env.SerializeCompressed operatorKey) (env.SerializeCompressed vendorKey)
      response.Address response.RedeemScript ::
    match env.NewMultisigWallet (env.SerializeCompressed customerKey)
      (env.SerializeCompressed operatorKey) (env.SerializeCompressed vendorKey)
      response.Address response.RedeemScript with
    | some err => [.JSON 400 (.H [("error", err)])]
    | none => [.JSON 200 (.result response)]

/-- The handler reaches the wallet RPC call with the three decoded keys. -/
def Reaches (env : Env Key Addr L) (c : Context String)
    (customerKey vendorKey operatorKey : Key) : Prop :=
  ∃ body customer vendor operator,
    c.ShouldBindJSON = .ok body ∧
    (env.FindPublicKeyByAccount (index body "customer")).1 = some customer ∧
    env.NewAddressPubKey customer.PubKey = .ok customerKey ∧
    env.FindPublicKeyByAccount (index body "vendor") = (some vendor, none) ∧
    env.NewAddressPubKey vendor.PubKey = .ok vendorKey ∧
    GetOperatorKey env = .ok operator ∧
    env.NewAddressPubKey operator = .ok operatorKey

/-- The run of the handler when it reaches the wallet RPC call. -/
theorem run_of_reaches (env : Env Key Addr L) (c : Context String)
    (body : List (String × String)) (customer vendor : AccountPublicKey) (operator : Bytes)
    (customerKey vendorKey operatorKey : Key)
    (hbind : c.ShouldBindJSON = .ok body)
    (hc : (env.FindPublicKeyByAccount (index body "customer")).1 = some customer)
    (hck : env.NewAddressPubKey customer.PubKey = .ok customerKey)
    (hv : env.FindPublicKeyByAccount (index body "vendor") = (some vendor, none))
    (hvk : env.NewAddressPubKey vendor.PubKey = .ok vendorKey)
    (ho : GetOperatorKey env = .ok operator)
    (hok : env.NewAddressPubKey operator = .ok operatorKey) :
    AddMultisigAddress env c =
      Event.Take 5 c.now (env.limiterTake (env.limiterNew 5) c.now).2 ::
        ((if (env.FindPublicKeyByAccount (index body "customer")).2.isSome
            then [customerNotFound] else []) ++
          afterKeys env customerKey vendorKey operatorKey) := by
  simp only [AddMultisigAddress, afterKeys, customerNotFound, hbind, hc, hck, hv, hvk, ho, hok]

/-- The optional not-found response contains no RPC call and no store call. -/
theorem filter_notFound (b : Bool) :
    (if b then [(customerNotFound : Event Key Addr)] else []).filter isCreateMultisig = [] ∧
    (if b then [(customerNotFound : Event Key Addr)] else []).filter isNewMultisigWallet = [] := by
  cases b <;> simp [customerNotFound, isCreateMultisig, isNewMultisigWallet]

/-- A run either never calls the wallet RPC nor the wallet store, or it
reaches the RPC call. -/
theorem run_cases (env : Env Key Addr L) (c : Context String) :
    ((AddMultisigAddress env c).filter isCreateMultisig = [] ∧
      (AddMultisigAddress env c).filter isNewMultisigWallet = []) ∨
    ∃ customerKey vendorKey operatorKey, Reaches env c customerKey vendorKey operatorKey := by
  unfold Reaches
  have hpre := fun b => @filter_notFound Key Addr b
  simp only [customerNotFound] at hpre
  cases hbind : c.ShouldBindJSON with
  | error e => left; simp [AddMultisigAddress, hbind, isCreateMultisig, isNewMultisigWallet]
  | ok body =>
    cases hc : (env.FindPublicKeyByAccount (index body "customer")).1 with
    | none =>
      left
      simp [AddMultisigAddress, hbind, hc, isCreateMultisig, isNewMultisigWallet,
        List.filter_cons, hpre]
    | some customer =>
      cases hck : env.NewAddressPubKey customer.PubKey with
      | error e =>
        left
        simp [AddMultisigAddress, hbind, hc, hck, isCreateMultisig, isNewMultisigWallet,
          List.filter_cons, hpre]
      | ok customerKey =>
        rcases hv : env.FindPublicKeyByAccount (index body "vendor") with ⟨v, e⟩
        cases e with
        | some e =>
          left
          simp [AddMultisigAddress, hbind, hc, hck, hv, isCreateMultisig, isNewMultisigWallet,
            List.filter_cons, hpre]
        | none =>
          cases v with
          | none =>
            left
            simp [AddMultisigAddress, hbind, hc, hck, hv, isCreateMultisig, isNewMultisigWallet,
              List.filter_cons, hpre]
          | some vendor =>
            cases hvk : env.NewAddressPubKey vendor.PubKey with
            | error e =>
              left
              simp [AddMultisigAddress, hbind, hc, hck, hv, hvk, isCreateMultisig,
                isNewMultisigWallet, List.filter_cons, hpre]
            | ok vendorKey =>
              cases ho : GetOperatorKey env with
              | panic m =>
                left
                simp [AddMultisigAddress, hbind, hc, hck, hv, hvk, ho, isCreateMultisig,
                  isNewMultisigWallet, List.filter_cons, hpre]
              | error e =>
                left
                simp [AddMultisigAddress, hbind, hc, hck, hv, hvk, ho, isCreateMultisig,
                  isNewMultisigWallet, List.filter_cons, hpre]
              | ok operator =>
                cases hok : env.NewAddressPubKey operator with
                | error e =>
                  left
                  simp [AddMultisigAddress, hbind, hc, hck, hv, hvk, ho, hok, isCreateMultisig,
                    isNewMultisigWallet, List.filter_cons, hpre]
                | ok operatorKey =>
                  right
                  exact ⟨customerKey, vendorKey, operatorKey, body, customer, vendor, operator,
                    rfl, hc, hck, hv, hvk, rfl, hok⟩

/-- The run of the handler when all three keys are found and decode. -/
theorem run_of_found (env : Env Key Addr L) (c : Context String)
    (body : List (String × String)) (customer vendor : AccountPublicKey) (operator : Bytes)
    (customerKey vendorKey operatorKey : Key)
    (hbind : c.ShouldBindJSON = .ok body)
    (hc : env.FindPublicKeyByAccount (index body "customer") = (some customer, none))
    (hck : env.NewAddressPubKey customer.PubKey = .ok customerKey)
    (hv : env.FindPublicKeyByAccount (index body "vendor") = (some vendor, none))
    (hvk : env.NewAddressPubKey vendor.PubKey = .ok vendorKey)
    (ho : GetOperatorKey env = .ok operator)
    (hok : env.NewAddressPubKey operator = .ok operatorKey) :
    AddMultisigAddress env c =
      Event.Take 5 c.now (env.limiterTake (env.limiterNew 5) c.now).2 ::
        afterKeys env customerKey vendorKey operatorKey := by
  have h := run_of_reaches env c body customer vendor operator customerKey vendorKey
    operatorKey hbind (by rw [hc]) hck hv hvk ho hok
  rw [h, hc]
  simp

/-- From the RPC call on, the handler calls `CreateMultisig` once. -/
theorem afterKeys_createMultisig (env : Env Key Addr L) (customerKey vendorKey operatorKey : Key) :
    (afterKeys env customerKey vendorKey operatorKey).filter isCreateMultisig =
      [.RPCCreateMultisig 2 [customerKey, vendorKey, operatorKey]] := by
  unfold afterKeys
  split
  · simp [isCreateMultisig]
  · split <;> simp [isCreateMultisig]

end Structure

/-! ## The claims -/

section Claims

variable {Key Addr L : Type}

/-- C2: when the customer, vendor and operator keys are found and decode, and
the wallet RPC and the database both succeed, `plutus.NewMultisigWallet` is
called exactly once, with the compressed serialisations of the customer,
operator and vendor keys in that order and with the address and redeem script
returned by `CreateMultisig`, and the only response is the 200 carrying that
same result. (Distinctness of the keys is not needed.) -/
theorem C2_success_persists_compressed_keys (env : Env Key Addr L) (c : Context String)
    (body : List (String × String)) (customer vendor : AccountPublicKey) (operator : Bytes)
    (customerKey vendorKey operatorKey : Key) (response : CreateMultiSigResult)
    (hbind : c.ShouldBindJSON = .ok body)
    (hc : env.FindPublicKeyByAccount (index body "customer") = (some customer, none))
    (hck : env.NewAddressPubKey customer.PubKey = .ok customerKey)
    (hv : env.FindPublicKeyByAccount (index body "vendor") = (some vendor, none))
    (hvk : env.NewAddressPubKey vendor.PubKey = .ok vendorKey)
    (ho : GetOperatorKey env = .ok operator)
    (hok : env.NewAddressPubKey operator = .ok operatorKey)
    (hrpc : env.CreateMultisig 2 [customerKey, vendorKey, operatorKey] = .ok response)
    (hdb : env.NewMultisigWallet (env.SerializeCompressed customerKey)
      (env.SerializeCompressed operatorKey) (env.SerializeCompressed vendorKey)
      response.Address response.RedeemScript = none) :
    (AddMultisigAddress env c).filter isNewMultisigWallet =
      [.NewMultisigWallet (env.SerializeCompressed customerKey)
        (env.SerializeCompressed operatorKey) (env.SerializeCompressed vendorKey)
        response.Address response.RedeemScript] ∧
    (AddMultisigAddress env c).filter isResponse = [.JSON 200 (.result response)] := by
  rw [run_of_found env c body customer vendor operator customerKey vendorKey operatorKey
    hbind hc hck hv hvk ho hok]
  simp [afterKeys, hrpc, hdb, isNewMultisigWallet, isResponse]

/-- C2 at the request of alice and bob in the reference deployment. -/
theorem C2_success_persists_compressed_keys_witness :
    (AddMultisigAddress demoEnv aliceBob).filter isNewMultisigWallet =
      [.NewMultisigWallet [2, 11] [2, 13] [3, 12] "bc1q" "5221"] ∧
    (AddMultisigAddress demoEnv aliceBob).filter isResponse =
      [.JSON 200 (.result ⟨"bc1q", "5221"⟩)] :=
  C2_success_persists_compressed_keys demoEnv aliceBob
    [("customer", "alice"), ("vendor", "bob")] ⟨[2, 11]⟩ ⟨[3, 12]⟩ [2, 13]
    [2, 11] [3, 12] [2, 13] ⟨"bc1q", "5221"⟩
    (by rfl) (by rfl) (by rfl) (by rfl) (by rfl) (by rfl) (by rfl) (by rfl) (by rfl)

/-- C3: in every run the handler either makes no `CreateMultisig` call, or it
makes exactly one, with required-signature count 2 and exactly the three
keys: the decoded key of the record looked up for `body["customer"]`, the
decoded key of the record looked up for `body["vendor"]`, and the decoded key
returned by `GetOperatorKey`, in this order. -/
theorem C3_rpc_called_once_two_of_three (env : Env Key Addr L) (c : Context String) :
    (AddMultisigAddress env c).filter isCreateMultisig = [] ∨
    ∃ body customer vendor operator customerKey vendorKey operatorKey,
      c.ShouldBindJSON = .ok body ∧
      (env.FindPublicKeyByAccount (index body "customer")).1 = some customer ∧
      env.NewAddressPubKey customer.PubKey = .ok customerKey ∧
      env.FindPublicKeyByAccount (index body "vendor") = (some vendor, none) ∧
      env.NewAddressPubKey vendor.PubKey = .ok vendorKey ∧
      GetOperatorKey env = .ok operator ∧
      env.NewAddressPubKey operator = .ok operatorKey ∧
      (AddMultisigAddress env c).filter isCreateMultisig =
        [.RPCCreateMultisig 2 [customerKey, vendorKey, operatorKey]] := by
  rcases run_cases env c with ⟨h, _⟩ |
    ⟨ck, vk, ok, body, cu, ve, op, hb, hc, hck, hv, hvk, ho, hok⟩
  · exact Or.inl h
  · right
    refine ⟨body, cu, ve, op, ck, vk, ok, hb, hc, hck, hv, hvk, ho, hok, ?_⟩
    rw [run_of_reaches env c body cu ve op ck vk ok hb hc hck hv hvk ho hok]
    have hpre := (@filter_notFound Key Addr
      (env.FindPublicKeyByAccount (index body "customer")).2.isSome).1
    simp [List.filter_cons, List.filter_append, hpre, isCreateMultisig,
      afterKeys_createMultisig]

/-- C5, as stated, fails: bob has registered the key of alice, the decoded
customer and vendor keys are equal, and the handler still calls
`CreateMultisig` with the duplicated key, stores the wallet and answers 200. -/
theorem C5_duplicate_keys_counterexample :
    sameKeyEnv.NewAddressPubKey [2, 11] = .ok [2, 11] ∧
    sameKeyEnv.FindPublicKeyByAccount "alice" = sameKeyEnv.FindPublicKeyByAccount "bob" ∧
    AddMultisigAddress sameKeyEnv aliceBob =
      [.Take 5 0 0,
       .RPCCreateMultisig 2 [[2, 11], [2, 11], [2, 13]],
       .NewMultisigWallet [2, 11] [2, 13] [2, 11] "bc1q" "5221",
       .JSON 200 (.result ⟨"bc1q", "5221"⟩)] :=
  ⟨rfl, rfl, by decide⟩

/-- C5 amended: when the three keys are found and decode and two of the
decoded keys are equal, the handler does not reject the request: it calls
`CreateMultisig` exactly once with count 2 and the three keys, duplicates
included, and it calls `NewMultisigWallet` exactly when that RPC succeeds. -/
theorem C5_duplicate_keys_reach_rpc (env : Env Key Addr L) (c : Context String)
    (body : List (String × String)) (customer vendor : AccountPublicKey) (operator : Bytes)
    (customerKey vendorKey operatorKey : Key)
    (hbind : c.ShouldBindJSON = .ok body)
    (hc : env.FindPublicKeyByAccount (index body "customer") = (some customer, none))
    (hck : env.NewAddressPubKey customer.PubKey = .ok customerKey)
    (hv : env.FindPublicKeyByAccount (index body "vendor") = (some vendor, none))
    (hvk : env.NewAddressPubKey vendor.PubKey = .ok vendorKey)
    (ho : GetOperatorKey env = .ok operator)
    (hok : env.NewAddressPubKey operator = .ok operatorKey)
    (_hdup : customerKey = vendorKey ∨ customerKey = operatorKey ∨ vendorKey = operatorKey) :
    (AddMultisigAddress env c).filter isCreateMultisig =
      [.RPCCreateMultisig 2 [customerKey, vendorKey, operatorKey]] ∧
    ((AddMultisigAddress env c).filter isNewMultisigWallet ≠ [] ↔
      ∃ response, env.CreateMultisig 2 [customerKey, vendorKey, operatorKey] = .ok response) := by
  rw [run_of_found env c body customer vendor operator customerKey vendorKey operatorKey
    hbind hc hck hv hvk ho hok]
  constructor
  · simp [List.filter_cons, isCreateMultisig, afterKeys_createMultisig]
  · unfold afterKeys
    cases hr : env.CreateMultisig 2 [customerKey, vendorKey, operatorKey] with
    | error e => simp [isNewMultisigWallet]
    | ok r => simp [List.filter_cons, isNewMultisigWallet]

/-- C5 amended, at the request of alice and bob when both registered one key. -/
theorem C5_duplicate_keys_reach_rpc_witness :
    (AddMultisigAddress sameKeyEnv aliceBob).filter isCreateMultisig =
      [.RPCCreateMultisig 2 [[2, 11], [2, 11], [2, 13]]] ∧
    ((AddMultisigAddress sameKeyEnv aliceBob).filter isNewMultisigWallet ≠ [] ↔
      ∃ response, sameKeyEnv.CreateMultisig 2 [[2, 11], [2, 11], [2, 13]] = .ok response) :=
  C5_duplicate_keys_reach_rpc sameKeyEnv aliceBob
    [("customer", "alice"), ("vendor", "bob")] ⟨[2, 11]⟩ ⟨[2, 11]⟩ [2, 13]
    [2, 11] [2, 11] [2, 13]
    (by rfl) (by rfl) (by rfl) (by rfl) (by rfl) (by rfl) (by rfl) (Or.inl rfl)

/-- C6: in every run in which the handler calls `CreateMultisig` and the call
returns an error, the whole run is determined: the limiter take, the
not-found response of a failed customer lookup if there was one, the RPC
call, and the 400 response with the fixed message "The request failed, please
try again", after which the handler stops. So the responses of the run are
that fixed 400 (preceded only by the customer not-found 400 when the customer
lookup had failed), the text of the RPC error is never sent,
`plutus.NewMultisigWallet` is never called, and no response has a status
other than 400. -/
theorem C6_rpc_error_nothing_persisted (env : Env Key Addr L) (c : Context String)
    (n : Nat) (keys : List Key) (e : String)
    (hcall : Event.RPCCreateMultisig n keys ∈ AddMultisigAddress env c)
    (herr : env.CreateMultisig n keys = .error e) :
    (∃ body, c.ShouldBindJSON = .ok body ∧
      AddMultisigAddress env c =
        Event.Take 5 c.now (env.limiterTake (env.limiterNew 5) c.now).2 ::
          ((if (env.FindPublicKeyByAccount (index body "customer")).2.isSome then
              [Event.JSON 400
                (.H [("error", "Failed to find a public key"), ("field", "customer")])]
            else []) ++
            [.RPCCreateMultisig n keys,
             .JSON 400 (.H [("error", "The request failed, please try again")])]) ∧
      (AddMultisigAddress env c).filter isResponse =
        (if (env.FindPublicKeyByAccount (index body "customer")).2.isSome then
            [Event.JSON 400
              (.H [("error", "Failed to find a public key"), ("field", "customer")])]
          else []) ++
          [.JSON 400 (.H [("error", "The request failed, please try again")])]) ∧
    (AddMultisigAddress env c).getLast? =
      some (.JSON 400 (.H [("error", "The request failed, please try again")])) ∧
    (AddMultisigAddress env c).filter isNewMultisigWallet = [] ∧
    ∀ code obj, Event.JSON code obj ∈ AddMultisigAddress env c → code = 400 := by
  rcases run_cases env c with ⟨h, _⟩ |
    ⟨ck, vk, ok, body, cu, ve, op, hb, hc, hck, hv, hvk, ho, hok⟩
  · exfalso
    have hmem : Event.RPCCreateMultisig n keys ∈
        (AddMultisigAddress env c).filter isCreateMultisig :=
      List.mem_filter.mpr ⟨hcall, rfl⟩
    rw [h] at hmem
    exact List.not_mem_nil _ hmem
  · have hmem : Event.RPCCreateMultisig n keys ∈
        (AddMultisigAddress env c).filter isCreateMultisig :=
      List.mem_filter.mpr ⟨hcall, rfl⟩
    have hrun := run_of_reaches env c body cu ve op ck vk ok hb hc hck hv hvk ho hok
    have hpre := @filter_notFound Key Addr
      (env.FindPublicKeyByAccount (index body "customer")).2.isSome
    rw [hrun] at hmem ⊢
    simp only [List.filter_cons, List.filter_append, hpre.1, isCreateMultisig,
      afterKeys_createMultisig, List.nil_append] at hmem
    simp at hmem
    obtain ⟨rfl, rfl⟩ := hmem
    simp only [afterKeys, herr]
    refine ⟨⟨body, hb, ?_⟩, ?_⟩
    · cases (env.FindPublicKeyByAccount (index body "customer")).2.isSome <;>
        simp [customerNotFound, isResponse, errRequestFailed, errFailedToFindPublicKey]
    · cases (env.FindPublicKeyByAccount (index body "customer")).2.isSome
      · simp [isNewMultisigWallet, errRequestFailed]
      · simp only [customerNotFound, errRequestFailed]
        refine ⟨by simp, by simp [isNewMultisigWallet], ?_⟩
        intro code obj hmem
        simp at hmem
        rcases hmem with ⟨h, _⟩ | ⟨h, _⟩ <;> exact h

/-- C6 at the request of alice and bob when the wallet node refuses the call:
the only response is the fixed 400, and the text "connection refused" of the
RPC error is not sent. -/
theorem C6_rpc_error_nothing_persisted_witness :
    (∃ body, aliceBob.ShouldBindJSON = .ok body ∧
      AddMultisigAddress rpcDownEnv aliceBob =
        Event.Take 5 aliceBob.now
            (rpcDownEnv.limiterTake (rpcDownEnv.limiterNew 5) aliceBob.now).2 ::
          ((if (rpcDownEnv.FindPublicKeyByAccount (index body "customer")).2.isSome then
              [Event.JSON 400
                (.H [("error", "Failed to find a public key"), ("field", "customer")])]
            else []) ++
            [.RPCCreateMultisig 2 [[2, 11], [3, 12], [2, 13]],
             .JSON 400 (.H [("error", "The request failed, please try again")])]) ∧
      (AddMultisigAddress rpcDownEnv aliceBob).filter isResponse =
        (if (rpcDownEnv.FindPublicKeyByAccount (index body "customer")).2.isSome then
            [Event.JSON 400
              (.H [("error", "Failed to find a public key"), ("field", "customer")])]
          else []) ++
          [.JSON 400 (.H [("error", "The request failed, please try again")])]) ∧
    (AddMultisigAddress rpcDownEnv aliceBob).getLast? =
      some (.JSON 400 (.H [("error", "The request failed, please try again")])) ∧
    (AddMultisigAddress rpcDownEnv aliceBob).filter isNewMultisigWallet = [] ∧
    ∀ code obj, Event.JSON code obj ∈ AddMultisigAddress rpcDownEnv aliceBob → code = 400 :=
  C6_rpc_error_nothing_persisted rpcDownEnv aliceBob 2 [[2, 11], [3, 12], [2, 13]]
    "connection refused" (by decide) (by rfl)

/-- C7, as stated, fails: two runs that differ only in the text of the error
returned by `plutus.NewMultisigWallet` send different responses, each one
carrying the text of its storage error. -/
theorem C7_storage_error_counterexample :
    (AddMultisigAddress (storeFailsEnv "pq: duplicate key value") aliceBob).filter isResponse =
      [.JSON 400 (.H [("error", "pq: duplicate key value")])] ∧
    (AddMultisigAddress (storeFailsEnv "dial tcp 10.0.0.5:5432: refused") aliceBob).filter
        isResponse =
      [.JSON 400 (.H [("error", "dial tcp 10.0.0.5:5432: refused")])] ∧
    (AddMultisigAddress (storeFailsEnv "pq: duplicate key value") aliceBob).filter isResponse ≠
      (AddMultisigAddress (storeFailsEnv "dial tcp 10.0.0.5:5432: refused") aliceBob).filter
        isResponse := by
  decide

/-- C7 amended: when `CreateMultisig` succeeds and `plutus.NewMultisigWallet`
returns a storage error, the only response of the handler is the 400 whose
error field is the text of that storage error: it is a function of the text
of the error and of nothing else. -/
theorem C7_storage_error_echoed (env : Env Key Addr L) (c : Context String)
    (body : List (String × String)) (customer vendor : AccountPublicKey) (operator : Bytes)
    (customerKey vendorKey operatorKey : Key) (response : CreateMultiSigResult) (err : String)
    (hbind : c.ShouldBindJSON = .ok body)
    (hc : env.FindPublicKeyByAccount (index body "customer") = (some customer, none))
    (hck : env.NewAddressPubKey customer.PubKey = .ok customerKey)
    (hv : env.FindPublicKeyByAccount (index body "vendor") = (some vendor, none))
    (hvk : env.NewAddressPubKey vendor.PubKey = .ok vendorKey)
    (ho : GetOperatorKey env = .ok operator)
    (hok : env.NewAddressPubKey operator = .ok operatorKey)
    (hrpc : env.CreateMultisig 2 [customerKey, vendorKey, operatorKey] = .ok response)
    (hdb : env.NewMultisigWallet (env.SerializeCompressed customerKey)
      (env.SerializeCompressed operatorKey) (env.SerializeCompressed vendorKey)
      response.Address response.RedeemScript = some err) :
    (AddMultisigAddress env c).filter isResponse = [.JSON 400 (.H [("error", err)])] := by
  rw [run_of_found env c body customer vendor operator customerKey vendorKey operatorKey
    hbind hc hck hv hvk ho hok]
  simp [afterKeys, hrpc, hdb, isResponse]

/-- C7 amended, at the request of alice and bob when the insert fails. -/
theorem C7_storage_error_echoed_witness :
    (AddMultisigAddress (storeFailsEnv "pq: duplicate key value") aliceBob).filter isResponse =
      [.JSON 400 (.H [("error", "pq: duplicate key value")])] :=
  C7_storage_error_echoed (storeFailsEnv "pq: duplicate key value") aliceBob
    [("customer", "alice"), ("vendor", "bob")] ⟨[2, 11]⟩ ⟨[3, 12]⟩ [2, 13]
    [2, 11] [3, 12] [2, 13] ⟨"bc1q", "5221"⟩ "pq: duplicate key value"
    (by rfl) (by rfl) (by rfl) (by rfl) (by rfl) (by rfl) (by rfl) (by rfl) (by rfl)

/-- C1 fails on the code: the branch of the failed customer lookup writes the
not-found response and does not return. With a nil record the handler then
panics; with an empty record it writes a second response; with a record that
holds a valid key it goes on to call `CreateMultisig` and
`plutus.NewMultisigWallet` and to answer 200. -/
theorem C1_not_found_does_not_return :
    AddMultisigAddress (lookupFailsEnv none) carolBob =
      [.Take 5 0 0,
       .JSON 400 (.H [("error", "Failed to find a public key"), ("field", "customer")]),
       .panic "invalid memory address or nil pointer dereference"] ∧
    AddMultisigAddress (lookupFailsEnv (some ⟨[]⟩)) carolBob =
      [.Take 5 0 0,
       .JSON 400 (.H [("error", "Failed to find a public key"), ("field", "customer")]),
       .JSON 400 (.H [("error", "Public key on file is invalid"), ("field", "customer")])] ∧
    AddMultisigAddress (lookupFailsEnv (some ⟨[2, 14]⟩)) carolBob =
      [.Take 5 0 0,
       .JSON 400 (.H [("error", "Failed to find a public key"), ("field", "customer")]),
       .RPCCreateMultisig 2 [[2, 14], [3, 12], [2, 13]],
       .NewMultisigWallet [2, 14] [2, 13] [3, 12] "bc1q" "5221",
       .JSON 200 (.result ⟨"bc1q", "5221"⟩)] := by
  decide

/-- C4 fails on the code: when the query succeeds with an empty set of
operator keys, `GetOperatorKey` returns no error; `rand.Intn(0)` panics. -/
theorem C4_empty_keyring_panics (env : Env Key Addr L) :
    GetOperatorKey { env with DatabaseFind := .ok [] } =
      .panic "invalid argument to Intn" := by
  simp [GetOperatorKey, randIntn, panicIntn]

/-- C8 fails on the code: every request builds its own limiter, so each of six
requests arriving within 200 ms is admitted at its arrival time, the sixth
at 200 ms, while one limiter shared by the six would admit the sixth after
one second. -/
theorem C8_limiter_is_per_request :
    handlerTakes demoEnv (.ok []) burst =
      [some (.Take 5 0 0), some (.Take 5 40000000 40000000),
       some (.Take 5 80000000 80000000), some (.Take 5 120000000 120000000),
       some (.Take 5 160000000 160000000), some (.Take 5 200000000 200000000)] ∧
    sharedTakes demoEnv (demoEnv.limiterNew 5) burst =
      [0, 200000000, 400000000, 600000000, 800000000, 1000000000] := by
  decide

/-- C9 fails on the code: for a body of the documented shape
`{"username": u, "public_key": k}` the handler reads `body["pubKey"]`, which
is absent, and calls `plutus.NewPubKey` with account `u` and the empty string. -/
theorem C9_submitted_key_is_dropped (env : Env Key Addr L) (now : Nat) (u k : String) :
    (SubmitPublicKey env
      { now := now, ShouldBindJSON := .ok [("username", u), ("public_key", k)] }).filter
        isNewPubKey = [.NewPubKey u ""] := by
  have h1 : index [("username", u), ("public_key", k)] "username" = u := by
    simp [index, List.lookup]
  have h2 : index [("username", u), ("public_key", k)] "pubKey" = "" := by
    simp [index, List.lookup]
  simp only [SubmitPublicKey, h1, h2]
  cases env.NewPubKey u "" <;> simp [isNewPubKey]

/-- C10 fails on the code: after the 400 of a failed wallet RPC neither
handler returns. `GetBalance` writes a second response, the 200 with the
balance; `SendToAddress`, whose RPC returned a nil hash, dereferences it. -/
theorem C10_rpc_error_does_not_return :
    (∀ (env : Env Key Addr L) (c : Context String) (v : Int) (e : String),
      GetBalance { env with GetBalance := fun _ => (v, some e) } c =
        [.Take 5 c.now (env.limiterTake (env.limiterNew 5) c.now).2,
         .RPCGetBalance "*",
         .JSON 400 (.H [("error", "Could not obtain platform balance")]),
         .JSON 200 (.H [("balance", env.AmountString v)])]) ∧
    SendToAddress sendFailsEnv sendRequest =
      [.Take 5 0 0,
       .RPCSendToAddress "bc1qdest" 1000,
       .JSON 400 (.H [("error", "Error sending transaction")]),
       .panic "invalid memory address or nil pointer dereference"] := by
  refine ⟨?_, by decide⟩
  intro env c v e
  simp [GetBalance, errBalanceCheck]

end Claims

end Plutus
